import Mathlib

/-!
Shallow embedding of the Game of Life embedded controller
(The-Game-of-Life-in-embedded-Rust).

The pure automaton logic is embedded from
src/timer_interrupt/src/game_of_life.rs (the same file is shared verbatim
by all three crates of the repository).  The interrupt handlers and the
main loops of the two input-strategy variants
(src/timer_interrupt/src/main.rs and src/gpio_interrupt/src/main.rs) are
embedded as explicit state transformers over the shared cells they touch;
each call to Display::show during one handler firing is recorded in an
output list of images, so that rendering behaviour becomes observable.
-/

namespace GoL

/-- A 5x5 boolean matrix: the matrix field of LifeState. -/
abbrev Matrix5 := Fin 5 → Fin 5 → Bool

/-- An image of u8 intensities, as produced by LifeState::int_matrix and
passed to the display. -/
abbrev DisplayImage := Fin 5 → Fin 5 → Nat

/-- The 7x7 zero-padded matrix built at the start of count_live_neighbors:
the loop writes matrix[r][c] to padded_matrix[r + 1][c + 1] for every
r, c below 5, and every other entry keeps its initial value false. -/
def padded_matrix (matrix : Matrix5) (i j : Nat) : Bool :=
  if h : 1 ≤ i ∧ i ≤ 5 ∧ 1 ≤ j ∧ j ≤ 5 then
    matrix ⟨i - 1, by omega⟩ ⟨j - 1, by omega⟩
  else
    false

/-- The list of the eight neighbor index pairs on the padded matrix, in the
order the source lists them (top row, sides, bottom row), computed from
new_target_row = target_row + 1 and new_target_col = target_col + 1. -/
def neighbors (target_row target_col : Nat) : List (Nat × Nat) :=
  let new_target_row := target_row + 1
  let new_target_col := target_col + 1
  [(new_target_row - 1, new_target_col - 1),
   (new_target_row - 1, new_target_col),
   (new_target_row - 1, new_target_col + 1),
   (new_target_row, new_target_col - 1),
   (new_target_row, new_target_col + 1),
   (new_target_row + 1, new_target_col - 1),
   (new_target_row + 1, new_target_col),
   (new_target_row + 1, new_target_col + 1)]

/-- Embeds count_live_neighbors: the final loop walks the eight neighbor
positions of the padded matrix and increments a counter for each one that
is true. -/
def count_live_neighbors (matrix : Matrix5) (target_row target_col : Nat) : Nat :=
  (neighbors target_row target_col).foldl
    (fun n_live_neighbors p =>
      if padded_matrix matrix p.1 p.2 then n_live_neighbors + 1 else n_live_neighbors)
    0

/-- Embeds LifeState::next_state: every cell of the new matrix is computed
from the old matrix (the source writes into a fresh next_state_matrix and
only assigns it to self.matrix after both loops finish). -/
def next_state (m : Matrix5) : Matrix5 := fun row_n col_n =>
  let n_neighbors := count_live_neighbors m row_n.val col_n.val
  match m row_n col_n, n_neighbors with
  | true, 2 => true
  | true, 3 => true
  | false, 3 => true
  | _, _ => false

/-- Embeds LifeState::int_matrix: each bool cell is cast to an integer
intensity, true to 1 and false to 0. -/
def int_matrix (m : Matrix5) : DisplayImage := fun row c =>
  if m row c then 1 else 0

/-- Modelled from the spec, for comparison with the code: the cell of a
grid at a pair of signed coordinates, where every position outside the 5x5
bounds counts as permanently dead (no wraparound). -/
def cellAt (m : Matrix5) (i j : Int) : Bool :=
  if h : 0 ≤ i ∧ i < 5 ∧ 0 ≤ j ∧ j < 5 then
    m ⟨i.toNat, by omega⟩ ⟨j.toNat, by omega⟩
  else
    false

/-- The eight offsets to the adjacent positions of a cell. -/
def adjacentOffsets : List (Int × Int) :=
  [(-1, -1), (-1, 0), (-1, 1), (0, -1), (0, 1), (1, -1), (1, 0), (1, 1)]

/-- Modelled from the spec, for comparison with the code: the count of
alive cells among the 8 positions adjacent to (r, c), out-of-bounds
positions counting as dead. -/
def live_neighbor_count_spec (m : Matrix5) (r c : Fin 5) : Nat :=
  adjacentOffsets.countP fun d => cellAt m ((r.val : Int) + d.1) ((c.val : Int) + d.2)

lemma foldl_count {α : Type} (f : α → Bool) (l : List α) (a : Nat) :
    l.foldl (fun acc p => if f p then acc + 1 else acc) a = a + l.countP f := by
  induction l generalizing a with
  | nil => simp
  | cons x xs ih =>
    simp only [List.foldl_cons, List.countP_cons, ih]
    cases hx : f x
    all_goals simp
    all_goals omega

lemma padded_eq_cellAt (m : Matrix5) (i j : Nat) :
    padded_matrix m i j = cellAt m ((i : Int) - 1) ((j : Int) - 1) := by
  unfold padded_matrix cellAt
  split_ifs with h1 h2
  · have hi : ((i : Int) - 1).toNat = i - 1 := by omega
    have hj : ((j : Int) - 1).toNat = j - 1 := by omega
    congr 1
    · exact Fin.ext (by simp only [Fin.val_mk]; omega)
    · exact Fin.ext (by simp only [Fin.val_mk]; omega)
  · exact absurd h2 (by omega)
  · exact absurd h1 (by omega)
  · rfl

lemma count_eq (m : Matrix5) (r c : Fin 5) :
    count_live_neighbors m r.val c.val = live_neighbor_count_spec m r c := by
  unfold count_live_neighbors neighbors live_neighbor_count_spec adjacentOffsets
  rw [foldl_count]
  simp only [List.countP_cons, List.countP_nil, padded_eq_cellAt, Nat.add_sub_cancel]
  push_cast
  ring_nf

/-- C1: one application of next_state sets each cell of the result from
the pre-transition grid: a live cell stays alive iff its count of live
cells among the 8 adjacent positions is 2 or 3, a dead cell becomes alive
iff that count is exactly 3, every other combination yields dead, and
positions outside the 5x5 bounds count as permanently dead. -/
theorem C1_transition_rule (m : Matrix5) (r c : Fin 5) :
    next_state m r c = true ↔
      (m r c = true ∧
        (live_neighbor_count_spec m r c = 2 ∨ live_neighbor_count_spec m r c = 3)) ∨
      (m r c = false ∧ live_neighbor_count_spec m r c = 3) := by
  rw [← count_eq]
  unfold next_state
  cases h : m r c <;>
    rcases hn : count_live_neighbors m r.val c.val with _ | _ | _ | _ | n <;>
    simp [h, hn]

/-! Shared state of the timer-multiplexed variant
(src/timer_interrupt/src/main.rs).  The statics BUTTON_A_WAS_PRESSED,
BUTTON_B_WAS_PRESSED, PAUSED and GAME_STATE are the mutable shared cells
the handlers touch; the Display and the two Rtc peripherals are hardware
handles whose only modelled effect is the list of images a firing passes
to Display::show. -/

/-- The shared mutable state of the timer_interrupt variant. -/
structure TimerState where
  buttonAWasPressed : Bool
  buttonBWasPressed : Bool
  paused : Bool
  gameState : Matrix5
  deriving DecidableEq

/-- Initial value of the static PAUSED in the timer_interrupt variant. -/
def PAUSED_init_timer : Bool := false

/-- Embeds the RTC0 interrupt handler of the timer_interrupt variant.
Arguments a_pressed and b_pressed are the raw levels read from the two
button pins (is_low) during this firing.  The returned list holds the
images passed to Display::show during the firing.  The handler also
resets the Tick event of BUTTON_COUNTER, a hardware-only effect that is
not part of the modelled state. -/
def RTC0 (a_pressed b_pressed : Bool) (s : TimerState) : TimerState × List DisplayImage :=
  let s1 :=
    if a_pressed then
      let old_a := s.buttonAWasPressed
      let s' := { s with buttonAWasPressed := true }
      if !old_a then { s' with paused := !s'.paused } else s'
    else
      { s with buttonAWasPressed := false }
  if b_pressed then
    let old_b := s1.buttonBWasPressed
    let s2 := { s1 with buttonBWasPressed := true }
    if !old_b then
      if s2.paused then
        let g := next_state s2.gameState
        ({ s2 with gameState := g }, [int_matrix g])
      else (s2, [])
    else (s2, [])
  else
    ({ s1 with buttonBWasPressed := false }, [])

/-- Embeds the RTC1 interrupt handler of the timer_interrupt variant:
when PAUSED is false the game state is advanced and the advanced state is
shown; when PAUSED is true nothing happens.  The handler also resets the
Compare0 event and clears the counter of DISPLAY_COUNTER, hardware-only
effects that are not part of the modelled state. -/
def RTC1 (s : TimerState) : TimerState × List DisplayImage :=
  if !s.paused then
    let g := next_state s.gameState
    ({ s with gameState := g }, [int_matrix g])
  else
    (s, [])

/-- The state part of one RTC1 firing. -/
def rtc1Step (s : TimerState) : TimerState := (RTC1 s).1

/-! Shared state of the edge-triggered variant
(src/gpio_interrupt/src/main.rs): the statics PAUSED and GAME_STATE. -/

/-- The shared mutable state of the gpio_interrupt variant. -/
structure GpioState where
  paused : Bool
  gameState : Matrix5
  deriving DecidableEq

/-- Initial value of the static PAUSED in the gpio_interrupt variant. -/
def PAUSED_init_gpio : Bool := false

/-- Embeds the GPIOTE interrupt handler of the gpio_interrupt variant.
Arguments a_triggered and b_triggered are the latched event flags of
channel0 (button A) and channel1 (button B).  Button A first toggles
PAUSED (via take then replace of the negated old value); button B then
advances the game state when the event is triggered and the game is
paused, the PAUSED value read being the post-toggle one.  Both channels
finally reset their events, a hardware-only effect. -/
def GPIOTE (a_triggered b_triggered : Bool) (s : GpioState) : GpioState :=
  let s1 := if a_triggered then { s with paused := !s.paused } else s
  if b_triggered && s1.paused then
    { s1 with gameState := next_state s1.gameState }
  else
    s1

/-- Embeds one iteration of the main loop of the gpio_interrupt variant:
the current game state is always shown first, and the state is advanced
afterwards only when PAUSED is false. -/
def main_loop_iter (s : GpioState) : GpioState × List DisplayImage :=
  let shown := int_matrix s.gameState
  if !s.paused then
    ({ s with gameState := next_state s.gameState }, [shown])
  else
    (s, [shown])

/-- The state part of one main loop iteration of the gpio_interrupt
variant. -/
def main_loop_step (s : GpioState) : GpioState := (main_loop_iter s).1

/-- The per-button debounce latch logic inlined in the RTC0 handler for
each button: given the previous was-pressed flag and the raw level of the
pin, returns the detected press edge together with the new was-pressed
flag.  When the raw level is high the flag is replaced by true and the
edge is the negation of the old flag; otherwise the flag is replaced by
false and no edge is reported. -/
def sample (was_pressed raw_level : Bool) : Bool × Bool :=
  if raw_level then
    let old := was_pressed
    (!old, true)
  else
    (false, false)

/-- Runs the debounce latch over a sequence of raw samples, returning the
sequence of reported edges. -/
def sampleSeq (was_pressed : Bool) : List Bool → List Bool
  | [] => []
  | raw :: rest =>
      let (edge, was') := sample was_pressed raw
      edge :: sampleSeq was' rest

/-- The initial game state matrix used by all variants of the program. -/
def initial_state_matrix : Matrix5 :=
  ![![false, false, false, false, false],
    ![false, true, true, true, false],
    ![true, true, true, false, false],
    ![false, false, false, false, false],
    ![false, false, false, false, false]]

/-- Modelled from the spec, for comparison with the rendering code: a
rendered image is re-parsed by reading every nonzero intensity as an
alive cell. -/
def parse_image (img : DisplayImage) : Matrix5 := fun r c => img r c != 0

/-! Option model of the shared cells, used to settle the error-handling
claim.  Every static of the form Mutex RefCell Option starts as None and
a handler observes either None or Some; panicking (which halts the
device) is modelled as Except.error. -/

/-- Embeds Peripherals::take of the PAC: returns the peripherals the
first time it is called and None afterwards.  The argument records
whether the peripherals were already taken. -/
def Peripherals_take (taken : Bool) : Option Unit :=
  if taken then none else some ()

/-- Embeds MyBoard::take (src/timer_interrupt/src/my_board.rs): matches
on Peripherals::take, returning Some of the built board in the Some case
and None in the None case. -/
def MyBoard_take (taken : Bool) : Option Unit :=
  match Peripherals_take taken with
  | some _ => some ()
  | none => none

/-- Embeds Option::unwrap, as called by the entry functions on the result
of MyBoard::take and Board::take: panicking, which halts the device, is
the error case. -/
def unwrap {α : Type} : Option α → Except Unit α
  | some a => Except.ok a
  | none => Except.error ()

/-- The shared cells of the gpio_interrupt variant with GAME_STATE kept
as the Option the static actually holds. -/
structure GpioCells where
  paused : Bool
  gameState : Option Matrix5
  deriving DecidableEq

/-- Embeds the GPIOTE handler over the Option-carrying cells: when the
GPIO cell is None the if-let falls through and the handler returns
silently; when the step path runs it unwraps GAME_STATE, halting
(Except.error) when that cell is None. -/
def GPIOTE_opt (a_triggered b_triggered : Bool) (gpio : Option Unit) (c : GpioCells) :
    Except Unit GpioCells :=
  match gpio with
  | none => Except.ok c
  | some _ =>
      let c1 := if a_triggered then { c with paused := !c.paused } else c
      if b_triggered && c1.paused then
        match c1.gameState with
        | some g => Except.ok { c1 with gameState := some (next_state g) }
        | none => Except.error ()
      else
        Except.ok c1

/-- The shared cells of the timer_interrupt variant with every
Option-carrying static kept as the Option it actually holds: the two
button pin handles BUTTON_A and BUTTON_B, the two latch flags, PAUSED,
the DISPLAY handle, GAME_STATE, and the two Rtc handles BUTTON_COUNTER
and DISPLAY_COUNTER. -/
structure TimerCells where
  buttonA : Option Unit
  buttonB : Option Unit
  buttonAWasPressed : Bool
  buttonBWasPressed : Bool
  paused : Bool
  display : Option Unit
  gameState : Option Matrix5
  buttonCounter : Option Unit
  displayCounter : Option Unit

/-- Embeds the button-A block of the RTC0 handler over the
Option-carrying cells: when the BUTTON_A cell is None the if-let falls
through and the whole block is skipped silently. -/
def RTC0_opt_buttonA (a_pressed : Bool) (c : TimerCells) : TimerCells :=
  match c.buttonA with
  | none => c
  | some _ =>
      if a_pressed then
        if !c.buttonAWasPressed then
          { c with buttonAWasPressed := true, paused := !c.paused }
        else
          { c with buttonAWasPressed := true }
      else
        { c with buttonAWasPressed := false }

/-- Embeds the button-B block of the RTC0 handler over the
Option-carrying cells: when the BUTTON_B cell is None the block is
skipped silently; inside the step path a None GAME_STATE or a None
DISPLAY is likewise skipped by its own if-let (a None DISPLAY still lets
the game state advance, only the show call is skipped). -/
def RTC0_opt_buttonB (b_pressed : Bool) (c : TimerCells) : TimerCells × List DisplayImage :=
  match c.buttonB with
  | none => (c, [])
  | some _ =>
      if b_pressed then
        if !c.buttonBWasPressed then
          if c.paused then
            match c.gameState with
            | none => ({ c with buttonBWasPressed := true }, [])
            | some g =>
                match c.display with
                | none =>
                    ({ c with buttonBWasPressed := true, gameState := some (next_state g) }, [])
                | some _ =>
                    ({ c with buttonBWasPressed := true, gameState := some (next_state g) },
                     [int_matrix (next_state g)])
          else
            ({ c with buttonBWasPressed := true }, [])
        else
          ({ c with buttonBWasPressed := true }, [])
      else
        ({ c with buttonBWasPressed := false }, [])

/-- Embeds the RTC0 handler over the Option-carrying cells: the button-A
block, then the button-B block, then the if-let on BUTTON_COUNTER whose
reset_event call is a hardware-only effect, so both of its branches
return the same value and a None counter cell is skipped silently.  No
path of the handler panics. -/
def RTC0_opt (a_pressed b_pressed : Bool) (c : TimerCells) :
    Except Unit (TimerCells × List DisplayImage) :=
  match RTC0_opt_buttonB b_pressed (RTC0_opt_buttonA a_pressed c) with
  | (c2, shown) =>
      match c2.buttonCounter with
      | none => Except.ok (c2, shown)
      | some _ => Except.ok (c2, shown)

/-- Embeds the display block of the RTC1 handler over the
Option-carrying cells: nested if-lets on DISPLAY and GAME_STATE fall
through silently when either cell is None. -/
def RTC1_opt_body (c : TimerCells) : TimerCells × List DisplayImage :=
  match c.display with
  | none => (c, [])
  | some _ =>
      match c.gameState with
      | none => (c, [])
      | some g =>
          if !c.paused then
            ({ c with gameState := some (next_state g) }, [int_matrix (next_state g)])
          else
            (c, [])

/-- Embeds the RTC1 handler over the Option-carrying cells: the display
block, then the if-let on DISPLAY_COUNTER whose reset_event and
clear_counter calls are hardware-only effects, so both of its branches
return the same value and a None counter cell is skipped silently.  No
path of the handler panics. -/
def RTC1_opt (c : TimerCells) : Except Unit (TimerCells × List DisplayImage) :=
  match RTC1_opt_body c with
  | (c2, shown) =>
      match c2.displayCounter with
      | none => Except.ok (c2, shown)
      | some _ => Except.ok (c2, shown)

/-- Embeds the TIMER0 handler over the Option-carrying cells: its single
if-let on DISPLAY calls handle_display_event, a hardware-only effect, so
both branches leave the modelled state unchanged and a None cell is
skipped silently.  No path of the handler panics. -/
def TIMER0_opt (c : TimerCells) : Except Unit TimerCells :=
  match c.display with
  | none => Except.ok c
  | some _ => Except.ok c

/-- Holds when an Except value is the non-panicking case. -/
def isOk {ε α : Type} : Except ε α → Bool
  | Except.ok _ => true
  | Except.error _ => false

/-- A concrete timer-variant cell state whose DISPLAY cell still holds
None while everything else is initialized. -/
def cellsNoDisplay : TimerCells :=
  { buttonA := some ()
    buttonB := some ()
    buttonAWasPressed := false
    buttonBWasPressed := false
    paused := false
    display := none
    gameState := some initial_state_matrix
    buttonCounter := some ()
    displayCounter := some () }

/-- A concrete timer-variant cell state, paused and ready for a button-B
step, whose DISPLAY cell still holds None. -/
def cellsNoDisplayStep : TimerCells :=
  { buttonA := some ()
    buttonB := some ()
    buttonAWasPressed := false
    buttonBWasPressed := false
    paused := true
    display := none
    gameState := some initial_state_matrix
    buttonCounter := some ()
    displayCounter := some () }

/-- A concrete paused timer-variant state used as input below. -/
def tPausedState : TimerState :=
  { buttonAWasPressed := false
    buttonBWasPressed := false
    paused := true
    gameState := initial_state_matrix }

/-- A concrete running timer-variant state used as input below. -/
def tRunningState : TimerState :=
  { buttonAWasPressed := false
    buttonBWasPressed := false
    paused := false
    gameState := initial_state_matrix }

/-- A concrete paused gpio-variant state used as input below. -/
def gPausedState : GpioState :=
  { paused := true, gameState := initial_state_matrix }

/-- A concrete running gpio-variant state used as input below. -/
def gRunningState : GpioState :=
  { paused := false, gameState := initial_state_matrix }

/-- Holds when a padded-matrix index pair lies inside the 7x7 padded
matrix. -/
def withinPadded (p : Nat × Nat) : Bool :=
  decide (p.1 ≤ 6) && decide (p.2 ≤ 6)

/-- C2 counterexample: the claim states that after an advance-and-render
tick fires, the current Grid is re-rendered to the display in every case,
Running or Paused.  At this concrete paused state the RTC1 handler of the
timer-multiplexed variant performs no call to Display::show at all, so
the claim as stated is false. -/
theorem C2_counterexample :
    tPausedState.paused = true ∧ (RTC1 tPausedState).2 = [] :=
  ⟨rfl, rfl⟩

/-- C2 amended: in the timer-multiplexed variant a firing of RTC1 reads
PauseFlag, and when Running it advances the Grid exactly one generation
and then renders the advanced Grid, while when Paused it neither advances
nor renders; in the blocking-display variant every main loop iteration
first renders the current Grid unconditionally and then, only when
Running, advances the Grid exactly one generation (the render preceding
the advance). -/
theorem C2_amended_tick (s : TimerState) (t : GpioState) :
    RTC1 s =
      (if s.paused then (s, ([] : List DisplayImage))
       else ({ s with gameState := next_state s.gameState },
             [int_matrix (next_state s.gameState)])) ∧
    main_loop_iter t =
      (if t.paused then (t, [int_matrix t.gameState])
       else ({ t with gameState := next_state t.gameState }, [int_matrix t.gameState])) := by
  constructor
  · unfold RTC1
    cases h : s.paused <;> simp [h]
  · unfold main_loop_iter
    cases h : t.paused <;> simp [h]

/-- C3: with PauseFlag Paused, any number N of consecutive periodic
advance-ticks leaves the Grid unchanged, and a single StepRequested event
(a confirmed button-B press-edge, which for the polled variant means the
raw level is high with the latch clear) while Paused advances the Grid by
exactly one generation and no more, in both input-strategy variants. -/
theorem C3_pause_gating (s : TimerState) (t : GpioState) (N : Nat)
    (hs : s.paused = true) (hb : s.buttonBWasPressed = false) (ht : t.paused = true) :
    (rtc1Step^[N] s).gameState = s.gameState ∧
    (main_loop_step^[N] t).gameState = t.gameState ∧
    (RTC0 false true s).1.gameState = next_state s.gameState ∧
    (GPIOTE false true t).gameState = next_state t.gameState := by
  have h1 : rtc1Step s = s := by unfold rtc1Step RTC1; simp [hs]
  have h2 : main_loop_step t = t := by unfold main_loop_step main_loop_iter; simp [ht]
  refine ⟨?_, ?_, ?_, ?_⟩
  · rw [Function.iterate_fixed h1]
  · rw [Function.iterate_fixed h2]
  · unfold RTC0; simp [hb, hs]
  · unfold GPIOTE; simp [ht]

/-- C3 witness: the pause-gating theorem applied at the concrete paused
states of both variants with three consecutive ticks. -/
theorem C3_pause_gating_witness :
    tPausedState.paused = true ∧ tPausedState.buttonBWasPressed = false ∧
      gPausedState.paused = true ∧
      ((rtc1Step^[3] tPausedState).gameState = tPausedState.gameState ∧
       (main_loop_step^[3] gPausedState).gameState = gPausedState.gameState ∧
       (RTC0 false true tPausedState).1.gameState = next_state tPausedState.gameState ∧
       (GPIOTE false true gPausedState).gameState = next_state gPausedState.gameState) :=
  ⟨rfl, rfl, rfl, C3_pause_gating tPausedState gPausedState 3 rfl rfl rfl⟩

/-- C4: the debounce latch returns the conjunction of the raw level with
the negated stored flag and then stores the raw level on every sample,
and consequently, starting from a clear latch, the raw sequence
false, true, true, true, false yields the edge sequence
false, true, false, false, false: exactly one edge per continuous press
and no edge on release. -/
theorem C4_debounce_latch (was_pressed raw_level : Bool) :
    sample was_pressed raw_level = (raw_level && !was_pressed, raw_level) ∧
    sampleSeq false [false, true, true, true, false] =
      [false, true, false, false, false] := by
  constructor
  · cases was_pressed <;> cases raw_level <;> rfl
  · rfl

/-- C5: in both input-strategy variants and for every current PauseFlag
value, processing a ToggleEdge (a confirmed button-A press-edge, with no
button-B event in the same firing) flips PauseFlag and leaves the Grid
unchanged. -/
theorem C5_toggle_independence (s : TimerState) (t : GpioState)
    (ha : s.buttonAWasPressed = false) :
    (RTC0 true false s).1.paused = !s.paused ∧
    (RTC0 true false s).1.gameState = s.gameState ∧
    (GPIOTE true false t).paused = !t.paused ∧
    (GPIOTE true false t).gameState = t.gameState := by
  refine ⟨?_, ?_, ?_, ?_⟩
  · unfold RTC0; simp [ha]
  · unfold RTC0; simp [ha]
  · unfold GPIOTE; simp
  · unfold GPIOTE; simp

/-- C5 witness: the toggle-independence theorem applied at the concrete
running states of both variants. -/
theorem C5_toggle_independence_witness :
    tRunningState.buttonAWasPressed = false ∧
      ((RTC0 true false tRunningState).1.paused = !tRunningState.paused ∧
       (RTC0 true false tRunningState).1.gameState = tRunningState.gameState ∧
       (GPIOTE true false gRunningState).paused = !gRunningState.paused ∧
       (GPIOTE true false gRunningState).gameState = gRunningState.gameState) :=
  ⟨rfl, C5_toggle_independence tRunningState gRunningState rfl⟩

/-- C6 counterexample: the claim states that every operation reading a
SharedCell after startup halts when the cell still holds None.  At this
concrete input the RTC1 handler reads the DISPLAY cell, finds None, and
returns normally without touching anything, so the claim as stated is
false. -/
theorem C6_counterexample :
    RTC1_opt cellsNoDisplay = Except.ok (cellsNoDisplay, []) :=
  rfl

/-- C6 amended: acquiring the singleton peripherals a second time halts
the device (the entry function unwraps MyBoard::take, which is None on a
second call), and the step path of the GPIOTE handler halts when
GAME_STATE still holds None; but every other SharedCell read is
performed through if-let and silently skips the guarded block instead of
halting when the cell is None: the GPIO handle in GPIOTE, the button
pins, DISPLAY, GAME_STATE and BUTTON_COUNTER in RTC0, DISPLAY,
GAME_STATE and DISPLAY_COUNTER in RTC1, and DISPLAY in TIMER0.  The
never-halts conjuncts below quantify over every cell state, None
counters and all; the equalities exhibit the skipped blocks, including
the RTC0 step path that advances the grid but skips the show call when
only DISPLAY is None. -/
theorem C6_amended_halting (cg : GpioCells) (a b : Bool) (c : TimerCells) :
    unwrap (MyBoard_take true) = Except.error () ∧
    GPIOTE_opt false true (some ()) { paused := true, gameState := none } =
      Except.error () ∧
    GPIOTE_opt a b none cg = Except.ok cg ∧
    isOk (RTC0_opt a b c) = true ∧
    isOk (RTC1_opt c) = true ∧
    TIMER0_opt c = Except.ok c ∧
    RTC0_opt a b { c with buttonA := none, buttonB := none } =
      Except.ok ({ c with buttonA := none, buttonB := none }, []) ∧
    RTC1_opt { c with display := none } =
      Except.ok ({ c with display := none }, []) ∧
    RTC1_opt { c with display := some (), gameState := none } =
      Except.ok ({ c with display := some (), gameState := none }, []) ∧
    RTC0_opt false true cellsNoDisplayStep =
      Except.ok ({ cellsNoDisplayStep with
                   buttonBWasPressed := true
                   gameState := some (next_state initial_state_matrix) }, []) ∧
    RTC0_opt false true { cellsNoDisplayStep with gameState := none } =
      Except.ok ({ cellsNoDisplayStep with
                   buttonBWasPressed := true
                   gameState := none }, []) := by
  refine ⟨rfl, rfl, rfl, ?_, ?_, ?_, ?_, ?_, ?_, rfl, rfl⟩
  · unfold RTC0_opt
    rcases RTC0_opt_buttonB b (RTC0_opt_buttonA a c) with ⟨c2, shown⟩
    rcases hbc : c2.buttonCounter with _ | u <;> simp [hbc, isOk]
  · unfold RTC1_opt
    rcases RTC1_opt_body c with ⟨c2, shown⟩
    rcases hdc : c2.displayCounter with _ | u <;> simp [hdc, isOk]
  · rcases hd : c.display with _ | u <;> simp [TIMER0_opt, hd]
  · rcases hbc : c.buttonCounter with _ | u <;>
      simp [RTC0_opt, RTC0_opt_buttonA, RTC0_opt_buttonB, hbc]
  · rcases hdc : c.displayCounter with _ | u <;>
      simp [RTC1_opt, RTC1_opt_body, hdc]
  · rcases hdc : c.displayCounter with _ | u <;>
      simp [RTC1_opt, RTC1_opt_body, hdc]

/-- C7: PauseFlag is created in the Running state (false) in both
variants, and the only handler step that ever writes it is the toggle on
a confirmed button-A press-edge: RTC1 and the blocking main loop always
leave it unchanged, RTC0 changes it exactly when the raw level of button
A is high with the latch clear, and GPIOTE changes it exactly when the
button-A event is triggered, the change always being the toggle.  (The
TIMER0 handler of the timer-multiplexed variant touches only the DISPLAY
cell and no game state at all.) -/
theorem C7_pause_flag_writers (s : TimerState) (t : GpioState) (a b : Bool) :
    PAUSED_init_timer = false ∧ PAUSED_init_gpio = false ∧
    (RTC1 s).1.paused = s.paused ∧
    (RTC0 a b s).1.paused =
      (if a && !s.buttonAWasPressed then !s.paused else s.paused) ∧
    (main_loop_iter t).1.paused = t.paused ∧
    (GPIOTE a b t).paused = (if a then !t.paused else t.paused) := by
  refine ⟨rfl, rfl, ?_, ?_, ?_, ?_⟩
  · unfold RTC1; cases h : s.paused <;> simp [h]
  · unfold RTC0
    cases a <;> cases hwa : s.buttonAWasPressed <;> cases b <;> simp [hwa] <;>
      split_ifs <;> rfl
  · unfold main_loop_iter; cases h : t.paused <;> simp [h]
  · unfold GPIOTE
    cases a <;> cases b <;> cases hp : t.paused <;> simp [hp]

/-- C8: the rendering map int_matrix is invertible on its image:
re-parsing the rendered intensities, reading any nonzero intensity as
alive, recovers the original boolean grid exactly. -/
theorem C8_render_roundtrip (m : Matrix5) : parse_image (int_matrix m) = m := by
  funext r c
  unfold parse_image int_matrix
  cases h : m r c <;> simp [h]

/-- C9: in the edge-triggered variant, when the events of both buttons
are triggered in the same GPIOTE firing, the pause toggle is applied
before the step check, which therefore reads the post-toggle PauseFlag:
a simultaneous press while Running leaves the system Paused with the
Grid advanced exactly one generation, and a simultaneous press while
Paused leaves it Running with the Grid unchanged. -/
theorem C9_simultaneous_press (t : GpioState) :
    GPIOTE true true t =
      (if t.paused then { paused := false, gameState := t.gameState }
       else { paused := true, gameState := next_state t.gameState }) := by
  unfold GPIOTE
  cases h : t.paused <;> simp [h]

/-- C10: for every target row and column below 5, every index pair that
count_live_neighbors reads from the padded matrix lies within the 7x7
bounds (both components at most 6, so the index additions stay far below
any machine-integer bound), and the returned count is between 0 and 8. -/
theorem C10_neighbor_indices_safe (m : Matrix5) (target_row target_col : Nat)
    (h1 : target_row < 5) (h2 : target_col < 5) :
    ((neighbors target_row target_col).all withinPadded) = true ∧
    count_live_neighbors m target_row target_col ≤ 8 := by
  constructor
  · unfold neighbors withinPadded
    simp only [List.all_cons, List.all_nil, Bool.and_true, Bool.and_eq_true,
      decide_eq_true_eq]
    omega
  · unfold count_live_neighbors
    rw [foldl_count, Nat.zero_add]
    refine le_trans (List.countP_le_length _) (le_of_eq ?_)
    unfold neighbors
    rfl

/-- C10 witness: the safety theorem applied at the concrete target
position (2, 3) of the initial game state. -/
theorem C10_neighbor_indices_safe_witness :
    2 < 5 ∧ 3 < 5 ∧
      (((neighbors 2 3).all withinPadded) = true ∧
       count_live_neighbors initial_state_matrix 2 3 ≤ 8) :=
  ⟨by decide, by decide,
    C10_neighbor_indices_safe initial_state_matrix 2 3 (by decide) (by decide)⟩

end GoL
